import Mathlib

/-!
Verification of the client-pipeline orchestration engine.

This file gives a shallow embedding, in Lean 4, of the parts of the
pipeline relevant to its specification: the intake path
(`Orchestrator._process_message` with cross-channel dedup and the
relevance gate), the outreach path (`Orchestrator._send_outreach`,
`Orchestrator._outreach_loop`, `Sender.send_outreach`), the rate
limiter (`RateLimiter.get_current_daily_limit`, `RateLimiter.wait`),
the discovery registration routine (`DiscoveryService._try_register`),
the janitor dead-channel sweep, and the reply-forwarding pass.

Modelling conventions:
- Machine time (monotonic clocks, ISO timestamps, julian days) is a
  rational number `ℚ`; sleeping is modelled exactly.
- SQLite rows become Lean structures mirroring `db/models.py`; a table
  is a `List` of rows kept in insertion (rowid) order, which matches
  the `ORDER BY id` used by every query the claims rely on.
- External collaborators (the messaging client, the LLM backend) are
  oracles: functions supplied as parameters, so every behaviour they
  may exhibit is quantified over.
- The SHA-256 hex digest of `_compute_text_hash` is modelled as an
  injective function of the normalized text, represented by the
  normalized text itself; the pipeline only ever compares digests for
  equality.
-/

namespace Pipeline

/-- Python whitespace characters matched by the regex class `\s` (ASCII range),
used by `Orchestrator._compute_text_hash` via `re.sub(r"\s+", " ", ...)`. -/
def is_py_space (c : Char) : Bool :=
  c == ' ' || c == '\t' || c == '\n' || c == '\r' || c == '\x0b' || c == '\x0c'

/-- Python `str.strip()`: drop leading and trailing whitespace. -/
def strip_ws (l : List Char) : List Char :=
  ((l.dropWhile is_py_space).reverse.dropWhile is_py_space).reverse

/-- Collapse every run of whitespace to a single space, as
`re.sub(r"\s+", " ", s)` does: the flag records whether the previous character
belonged to a whitespace run already replaced by one space. -/
def collapse_go (prev_space : Bool) : List Char → List Char
  | [] => []
  | c :: rest =>
    if is_py_space c then
      if prev_space then collapse_go true rest
      else ' ' :: collapse_go true rest
    else c :: collapse_go false rest

/-- Collapse every run of whitespace to a single space: `re.sub(r"\s+", " ", s)`. -/
def collapse_ws (l : List Char) : List Char :=
  collapse_go false l

/-- Normalization from `Orchestrator._compute_text_hash`:
`re.sub(r"\s+", " ", text.strip().lower())` — strip, lowercase, collapse
whitespace runs. -/
def normalize_text (s : String) : String :=
  String.mk (collapse_ws ((strip_ws s.data).map Char.toLower))

/-- The dedup key of `Orchestrator._compute_text_hash`. The SHA-256 hex digest
is modelled as an injective function of the normalized text (the digest is only
ever compared for equality), represented by the normalized text itself. -/
def compute_text_hash (s : String) : String :=
  normalize_text s

/-! Data model, mirroring `db/models.py` (rows as stored in the tables,
so `id` is the assigned rowid). -/

/-- A row of the `channels` table (`db/models.py` `Channel`). `discovered_at`
is the ISO timestamp modelled as a rational time coordinate (julian day). -/
structure Channel where
  id : Nat
  telegram_id : Option Nat
  username : Option String
  title : Option String
  is_active : Bool
  discovered_from : Option String
  discovered_at : Option ℚ
deriving Repr, DecidableEq

/-- A row of the `messages` table (`db/models.py` `Message`). -/
structure Message where
  id : Nat
  telegram_msg_id : Nat
  channel_id : Nat
  sender_id : Option Nat
  sender_username : Option String
  text : String
  date : ℚ
  text_hash : String
deriving Repr, DecidableEq

/-- A row of the `leads` table (`db/models.py` `Lead`). Timestamps are
rational time coordinates. -/
structure Lead where
  id : Nat
  message_id : Nat
  status : String
  relevance_score : Option ℚ
  budget : Option String
  stack : Option String
  deadline : Option String
  language : Option String
  summary : Option String
  outreach_text : Option String
  dm_text : Option String
  outreach_msg_id : Option Nat
  dm_msg_id : Option Nat
  contacted_at : Option ℚ
  replied_at : Option ℚ
  forwarded_at : Option ℚ
deriving Repr, DecidableEq

/-- A row of the `replies` table (`db/models.py` `Reply`). -/
structure Reply where
  id : Nat
  lead_id : Nat
  telegram_msg_id : Option Nat
  sender_id : Option Nat
  text : Option String
  sentiment : Option String
  received_at : Option ℚ
deriving Repr, DecidableEq

/-- A row of the `daily_budget` table (`db/models.py` `DailyBudget`); the
calendar date is a day index. -/
structure DailyBudget where
  date : Nat
  sends_used : Nat
  max_sends : Nat
deriving Repr, DecidableEq

/-- The persisted state (the SQLite database): one list per table, in rowid
order, plus the next fresh rowids. -/
structure DB where
  channels : List Channel
  messages : List Message
  leads : List Lead
  replies : List Reply
  next_message_id : Nat
  next_lead_id : Nat
deriving Repr, DecidableEq

/-- Embedding of `Repository.get_channel_by_telegram_id`: `SELECT * FROM channels WHERE
telegram_id=?` (first row). -/
def get_channel_by_telegram_id (db : DB) (telegram_id : Nat) : Option Channel :=
  db.channels.find? (fun c => c.telegram_id == some telegram_id)

/-- Modelled from the spec: the `UNIQUE (channel_id, telegram_msg_id)`
constraint of the `messages` table. `schema.sql` is not part of the sources;
§3 of the spec states the invariant "(channel, platform-message-id) is unique —
re-ingestion is a no-op", which `Repository.insert_message` relies on by
catching `IntegrityError`. -/
def message_dup (db : DB) (channel_id telegram_msg_id : Nat) : Bool :=
  db.messages.any (fun m => m.channel_id == channel_id && m.telegram_msg_id == telegram_msg_id)

/-- Embedding of `Repository.insert_message`: insert the row and return its id, or return
`None` (and change nothing) on a uniqueness violation. -/
def insert_message (db : DB) (telegram_msg_id channel_id : Nat) (sender_id : Option Nat)
    (sender_username : Option String) (text : String) (date : ℚ) (text_hash : String) :
    Option Nat × DB :=
  if message_dup db channel_id telegram_msg_id then (none, db)
  else
    (some db.next_message_id,
      { db with
        messages := db.messages ++
          [{ id := db.next_message_id, telegram_msg_id := telegram_msg_id,
             channel_id := channel_id, sender_id := sender_id,
             sender_username := sender_username, text := text, date := date,
             text_hash := text_hash }],
        next_message_id := db.next_message_id + 1 })

/-- Embedding of `Repository.has_lead_with_text_hash`: `SELECT 1 FROM leads l JOIN messages
m ON l.message_id = m.id WHERE m.text_hash = ? LIMIT 1`. -/
def has_lead_with_text_hash (db : DB) (text_hash : String) : Bool :=
  db.leads.any (fun l =>
    db.messages.any (fun m => m.id == l.message_id && m.text_hash == text_hash))

/-- Embedding of `Repository.insert_lead`: insert the row with a fresh id and return the id. -/
def insert_lead (db : DB) (lead : Lead) : Nat × DB :=
  (db.next_lead_id,
    { db with
      leads := db.leads ++ [{ lead with id := db.next_lead_id }],
      next_lead_id := db.next_lead_id + 1 })

/-- Embedding of `Repository.get_message`: `SELECT * FROM messages WHERE id=?`. -/
def get_message (db : DB) (message_id : Nat) : Option Message :=
  db.messages.find? (fun m => m.id == message_id)

/-- The channel-row lookup `SELECT * FROM channels WHERE id=?` used by
`Orchestrator._send_outreach` and `_forward_positive_replies`. -/
def get_channel_row (db : DB) (channel_id : Nat) : Option Channel :=
  db.channels.find? (fun c => c.id == channel_id)

/-- Embedding of `Repository.update_lead`: `UPDATE leads SET ... WHERE id=?`. -/
def update_lead (db : DB) (lead : Lead) : DB :=
  { db with leads := db.leads.map (fun l => if l.id == lead.id then lead else l) }

/-- Embedding of `Repository.get_leads_by_status`: `SELECT * FROM leads WHERE status=?
ORDER BY id`. -/
def get_leads_by_status (db : DB) (status : String) : List Lead :=
  db.leads.filter (fun l => l.status == status)

/-- Embedding of `Repository.get_replies_for_lead`: `SELECT * FROM replies WHERE lead_id=?
ORDER BY id`. -/
def get_replies_for_lead (db : DB) (lead_id : Nat) : List Reply :=
  db.replies.filter (fun r => r.lead_id == lead_id)

/-! Classification (`llm/classifier.py`). -/

/-- The parsed JSON object returned by the LLM for `classify_message`
(`llm/classifier.py`): the fields read by the pipeline. A missing or null
JSON field is `none`. -/
structure ClassifyResult where
  is_order : Option Bool
  relevance_score : Option ℚ
  budget : Option String
  stack : Option String
  deadline : Option String
  language : Option String
  summary : Option String
deriving Repr, DecidableEq

/-- Embedding of `classify_message` (`llm/classifier.py`): `chat_json` may return `None`
(transport or parse failure) — then return `None`; a falsy `is_order` field
(`not result.get("is_order")`: missing, null or false) — then return `None`;
otherwise return the result. The raw `chat_json` outcome is the argument. -/
def classify_message (raw : Option ClassifyResult) : Option ClassifyResult :=
  match raw with
  | none => none
  | some result => if result.is_order.getD false then some result else none

/-- Embedding of `telegram/collector.py` `IncomingMessage`: one queued inbound post. -/
structure IncomingMessage where
  telegram_msg_id : Nat
  chat_id : Nat
  sender_id : Option Nat
  sender_username : Option String
  text : String
  date : ℚ
deriving Repr, DecidableEq

/-- Embedding of `Orchestrator._process_message`: resolve the channel (unknown ⇒ drop),
normalize and hash the text, insert the message (duplicate ⇒ stop),
cross-channel dedup via `has_lead_with_text_hash` (hit ⇒ stop), classify
(null ⇒ stop), relevance gate (`score < min_relevance` ⇒ stop), else create
the lead in status "new". `classify` is the oracle for the raw `chat_json`
outcome on each text. -/
def process_message (db : DB) (min_relevance : ℚ)
    (classify : String → Option ClassifyResult) (incoming : IncomingMessage) : DB :=
  match get_channel_by_telegram_id db incoming.chat_id with
  | none => db
  | some channel =>
    let text_hash := compute_text_hash incoming.text
    match insert_message db incoming.telegram_msg_id channel.id incoming.sender_id
        incoming.sender_username incoming.text incoming.date text_hash with
    | (none, db1) => db1
    | (some msg_id, db1) =>
      if has_lead_with_text_hash db1 text_hash then db1
      else
        match classify_message (classify incoming.text) with
        | none => db1
        | some result =>
          let score := result.relevance_score.getD 0
          if score < min_relevance then db1
          else
            (insert_lead db1
              { id := 0, message_id := msg_id, status := "new",
                relevance_score := some score, budget := result.budget,
                stack := result.stack, deadline := result.deadline,
                language := result.language, summary := result.summary,
                outreach_text := none, dm_text := none, outreach_msg_id := none,
                dm_msg_id := none, contacted_at := none, replied_at := none,
                forwarded_at := none }).2

/-! Rate limiter (`utils/rate_limiter.py`). -/

/-- The `warmup_schedule` dict handed to `RateLimiter`; a field is `none` when
the key is absent (then `dict.get` supplies the default). -/
structure WarmupSchedule where
  week_1 : Option Nat
  week_2 : Option Nat
  week_3 : Option Nat
  week_4_plus : Option Nat
deriving Repr, DecidableEq

/-- Embedding of `RateLimiter.get_current_daily_limit`: `weeks = days_since_start // 7 + 1`,
then a four-tier lookup with `dict.get` defaults 2, 5, 8, 12.
`days_since_start` is `(now - started_at).days`. -/
def get_current_daily_limit (w : WarmupSchedule) (days_since_start : Nat) : Nat :=
  let weeks := days_since_start / 7 + 1
  if weeks ≤ 1 then w.week_1.getD 2
  else if weeks ≤ 2 then w.week_2.getD 5
  else if weeks ≤ 3 then w.week_3.getD 8
  else w.week_4_plus.getD 12

/-- The mutable part of `RateLimiter` used by `wait()`: the configured jitter
window and the last-send marker (`time.monotonic()` value, initially 0). -/
structure RateLimiterState where
  min_delay : ℚ
  max_delay : ℚ
  last_send : ℚ
deriving Repr, DecidableEq

/-- Embedding of `RateLimiter.wait`: at call time `start` (the `time.monotonic()` sample)
with drawn delay `delay` (the `random.uniform(min_delay, max_delay)` sample),
compute `remaining = delay - (start - last_send)`, sleep `remaining` when
positive, and set `last_send` to the completion time. Returns the completion
time together with the new state; the sleep and the final clock sample are
modelled as exact. -/
def rate_wait (rl : RateLimiterState) (start delay : ℚ) : ℚ × RateLimiterState :=
  let elapsed := start - rl.last_send
  let remaining := delay - elapsed
  let completion := if 0 < remaining then start + remaining else start
  (completion, { rl with last_send := completion })

/-! Sender (`telegram/sender.py`). -/

/-- Embedding of `Sender.send_outreach` result object (`telegram/sender.py` `SendResult`). -/
structure SendResult where
  thread_msg_id : Option Nat
  dm_msg_id : Option Nat
  peer_flood : Bool
deriving Repr, DecidableEq

/-- Outcome of one platform send attempt (`Sender.send_thread_reply` /
`Sender.send_dm` after the flood-retry wrapper): delivered with a message id,
skipped with `None` (permission or privacy failure), or a raised
`PeerFloodError`. -/
inductive SendAttempt where
  | sent (msg_id : Nat)
  | skipped
  | flood
deriving Repr, DecidableEq

/-- Embedding of `Sender.send_outreach`: send the thread reply; if a user id and a DM text
are both truthy, also send the DM; a `PeerFloodError` raised by either attempt
is caught and resolves to `SendResult(peer_flood=True)` (dropping any thread
message id). `thread_outcome` and `dm_outcome` are the platform oracles. -/
def sender_send_outreach (thread_outcome dm_outcome : SendAttempt)
    (user_id : Option Nat) (dm_text : Option String) : SendResult :=
  match thread_outcome with
  | .flood => { thread_msg_id := none, dm_msg_id := none, peer_flood := true }
  | thread =>
    let thread_id : Option Nat := match thread with | .sent i => some i | _ => none
    if user_id.getD 0 ≠ 0 ∧ dm_text.getD "" ≠ "" then
      match dm_outcome with
      | .flood => { thread_msg_id := none, dm_msg_id := none, peer_flood := true }
      | .sent j => { thread_msg_id := thread_id, dm_msg_id := some j, peer_flood := false }
      | .skipped => { thread_msg_id := thread_id, dm_msg_id := none, peer_flood := false }
    else { thread_msg_id := thread_id, dm_msg_id := none, peer_flood := false }

/-! Outreach (`Orchestrator._send_outreach`, `_outreach_loop`). -/

/-- The collaborator oracles used by `_send_outreach`: the two LLM text
generators (`generate_thread_reply`, `generate_dm`) and the sender
(`Sender.send_outreach`, by chat id, reply-to id, thread text, user id and DM
text). -/
structure OutreachEnv where
  gen_thread : String → String → String
  gen_dm : String → String → String → String
  send : Option Nat → Nat → String → Option Nat → Option String → SendResult

/-- The orchestrator state touched by the outreach path: the database, today's
`daily_budget` row (`Repository.get_daily_budget` re-reads it, and
`increment_daily_sends` bumps `sends_used`), the pause timestamp
`_outreach_paused_until`, and the count of `notify_peer_flood` calls. -/
structure OrchState where
  db : DB
  budget : DailyBudget
  paused_until : Option ℚ
  flood_notices : Nat
deriving Repr, DecidableEq

/-- Embedding of `Orchestrator._is_outreach_paused` at wall-clock time `now` (clearing the
expired marker only affects the stored state, not the returned value). -/
def is_outreach_paused (st : OrchState) (now : ℚ) : Bool :=
  match st.paused_until with
  | none => false
  | some t => decide (now < t)

/-- Embedding of `Orchestrator._send_outreach` for one lead at time `now`: look up the
source message (missing or empty text ⇒ return unchanged) and its channel row
(missing ⇒ return unchanged); generate the thread and DM texts; invoke the
sender; on `peer_flood`, set the 24-hour pause and notify the operator; else
persist the texts and delivered ids, mark the lead "contacted", stamp
`contacted_at`, and increment today's send counter. -/
def send_outreach (st : OrchState) (env : OutreachEnv) (lead : Lead) (now : ℚ) :
    OrchState :=
  match get_message st.db lead.message_id with
  | none => st
  | some msg =>
    if msg.text = "" then st
    else
      match get_channel_row st.db msg.channel_id with
      | none => st
      | some ch =>
        let language := lead.language.getD "en"
        let channel_title := ((ch.title.filter (· ≠ "")).orElse
          (fun _ => ch.username.filter (· ≠ ""))).getD "channel"
        let thread_text := env.gen_thread msg.text language
        let dm_text := env.gen_dm msg.text language channel_title
        let result := env.send ch.telegram_id msg.telegram_msg_id thread_text
          msg.sender_id (some dm_text)
        if result.peer_flood then
          { st with paused_until := some (now + 24), flood_notices := st.flood_notices + 1 }
        else
          let lead2 : Lead :=
            { lead with
              outreach_text := some thread_text, dm_text := some dm_text,
              outreach_msg_id := result.thread_msg_id, dm_msg_id := result.dm_msg_id,
              status := "contacted", contacted_at := some now }
          { st with
            db := update_lead st.db lead2,
            budget := { st.budget with sends_used := st.budget.sends_used + 1 } }

/-- The per-lead portion of `Orchestrator._outreach_loop`: for each fetched
"new" lead, stop when paused, re-read the budget and stop when
`sends_used >= max_sends`, otherwise attempt `_send_outreach` (exceptions are
caught and do not stop the batch) and pace with the rate limiter. -/
def outreach_pass (env : OutreachEnv) (now : ℚ) :
    OrchState → List Lead → OrchState
  | st, [] => st
  | st, lead :: rest =>
    if is_outreach_paused st now then st
    else if st.budget.max_sends ≤ st.budget.sends_used then st
    else outreach_pass env now (send_outreach st env lead now) rest

/-! Discovery (`telegram/discovery.py`). -/

/-- The `DiscoveryService` state touched by `_try_register`: the in-memory
`_known_ids` and `_rejected_ids` sets, the `discovery_max_channels` ceiling,
the persisted channels, the collector's monitored-chat set, and the next fresh
channel rowid. -/
structure DiscoveryState where
  known_ids : Finset Nat
  rejected_ids : Finset Nat
  max_channels : Nat
  channels : List Channel
  monitored : Finset Nat
  next_channel_id : Nat
deriving DecidableEq

/-- Embedding of `DiscoveryService._at_capacity`: `len(known_ids) >= max_channels`. -/
def at_capacity (st : DiscoveryState) : Bool :=
  st.max_channels ≤ st.known_ids.card

/-- Embedding of `Repository.get_channel_by_telegram_id` against the discovery state's
persisted channels. -/
def find_channel_by_tid (chs : List Channel) (telegram_id : Nat) : Option Channel :=
  chs.find? (fun c => c.telegram_id == some telegram_id)

/-- Embedding of `DiscoveryService._try_register` for one candidate id: skip if already
known or rejected, skip at capacity, skip (but remember) if already persisted;
resolve the display identity when neither a username nor a title was supplied
(`resolve` is the `get_entity` oracle, `none` meaning the lookup failed);
validate relevance (`validate` is the outcome of `_validate_channel`, with
every error already resolved to `false`), rejecting into `_rejected_ids`;
on acceptance persist the channel with its provenance, add it to
`_known_ids`, and hot-subscribe it. Returns whether a channel was registered,
with the new state. -/
def try_register (st : DiscoveryState)
    (resolve : Nat → Option (Option String × Option String))
    (validate : Nat → Bool) (telegram_id : Nat) (source : String)
    (username title : Option String) (now : ℚ) : Bool × DiscoveryState :=
  if telegram_id ∈ st.known_ids ∨ telegram_id ∈ st.rejected_ids then (false, st)
  else if at_capacity st then (false, st)
  else
    match find_channel_by_tid st.channels telegram_id with
    | some _ => (false, { st with known_ids := insert telegram_id st.known_ids })
    | none =>
      match (if username.getD "" = "" ∧ title.getD "" = "" then resolve telegram_id
             else some (username, title)) with
      | none => (false, st)
      | some (u, t) =>
        if validate telegram_id then
          let ch : Channel :=
            { id := st.next_channel_id, telegram_id := some telegram_id,
              username := u, title := t, is_active := true,
              discovered_from := some source, discovered_at := some now }
          (true,
            { st with
              channels := st.channels ++ [ch],
              known_ids := insert telegram_id st.known_ids,
              monitored := insert telegram_id st.monitored,
              next_channel_id := st.next_channel_id + 1 })
        else (false, { st with rejected_ids := insert telegram_id st.rejected_ids })

/-- One discovery strategy's scan, as each of the three strategies performs it:
feed every candidate (id, provenance tag, optional username, optional title)
through `_try_register`, counting the registrations. -/
def register_candidates (st : DiscoveryState)
    (resolve : Nat → Option (Option String × Option String))
    (validate : Nat → Bool) (now : ℚ) :
    List (Nat × String × Option String × Option String) → Nat × DiscoveryState
  | [] => (0, st)
  | (tid, src, u, t) :: rest =>
    let step := try_register st resolve validate tid src u t now
    let next := register_candidates step.2 resolve validate now rest
    ((if step.1 then 1 else 0) + next.1, next.2)

/-! Janitor (`Orchestrator._janitor_loop`, dead-channel sweep). -/

/-- The `EXISTS` subquery of `Repository.get_dead_channels`: the channel has a
message that some lead points at. -/
def channel_has_lead (db : DB) (channel_id : Nat) : Bool :=
  db.messages.any (fun m =>
    m.channel_id == channel_id && db.leads.any (fun l => l.message_id == m.id))

/-- The row filter of `Repository.get_dead_channels`: active, with a non-null
`discovered_at` strictly older than `min_age_days` (julian-day difference),
and no lead produced. -/
def is_dead_channel (db : DB) (now min_age_days : ℚ) (c : Channel) : Bool :=
  c.is_active &&
    (match c.discovered_at with
     | none => false
     | some d => decide (min_age_days < now - d)) &&
    !channel_has_lead db c.id

/-- Embedding of `Repository.get_dead_channels`: the dead-channel query, rows in id order. -/
def get_dead_channels (db : DB) (now min_age_days : ℚ) : List Channel :=
  db.channels.filter (is_dead_channel db now min_age_days)

/-- Embedding of `Repository.deactivate_channel`: `UPDATE channels SET is_active=0 WHERE
id=?`. -/
def deactivate_channel (db : DB) (channel_id : Nat) : DB :=
  { db with
    channels := db.channels.map (fun c =>
      if c.id == channel_id then { c with is_active := false } else c) }

/-- The dead-channel half of `Orchestrator._janitor_loop`: fetch
`get_dead_channels(min_age_days=7)`, then deactivate each returned channel and
(when its `telegram_id` is truthy) unsubscribe it from the collector's
monitored set. -/
def janitor_dead_sweep (db : DB) (monitored : Finset Nat) (now : ℚ) :
    DB × Finset Nat :=
  (get_dead_channels db now 7).foldl
    (fun acc ch =>
      (deactivate_channel acc.1 ch.id,
       if ch.telegram_id.getD 0 ≠ 0 then acc.2.erase (ch.telegram_id.getD 0)
       else acc.2))
    (db, monitored)

/-! Reply forwarding (`Orchestrator._forward_positive_replies`). -/

/-- The per-lead body of `_forward_positive_replies`: scan the lead's replies
in insertion order; at the first one with positive sentiment, notify the
operator (counted by the second component), mark the lead "forwarded", stamp
`forwarded_at`, and stop scanning; if none is positive but some is negative,
mark the lead "negative"; otherwise leave the lead unchanged. -/
def forward_lead (lead : Lead) (replies : List Reply) (now : ℚ) : Lead × Nat :=
  match replies.find? (fun r => r.sentiment == some "positive") with
  | some _ => ({ lead with status := "forwarded", forwarded_at := some now }, 1)
  | none =>
    if replies.any (fun r => r.sentiment == some "negative") then
      ({ lead with status := "negative" }, 0)
    else (lead, 0)

/-- Embedding of `Orchestrator._forward_positive_replies`: fetch the leads in status
"replied" and run the per-lead scan over each, persisting the updates;
returns the database together with the number of operator notifications. -/
def forward_positive_replies (db : DB) (now : ℚ) : DB × Nat :=
  (get_leads_by_status db "replied").foldl
    (fun acc lead =>
      let step := forward_lead lead (get_replies_for_lead acc.1 lead.id) now
      (update_lead acc.1 step.1, acc.2 + step.2))
    (db, 0)

/-! Specification-side measures over the database, used to state the
cross-channel dedup invariant. -/

/-- Whether a lead's source message (joined on `l.message_id = m.id`) carries
the given text hash — the join condition of `has_lead_with_text_hash`. -/
def lead_matches_hash (msgs : List Message) (l : Lead) (h : String) : Bool :=
  msgs.any (fun m => m.id == l.message_id && m.text_hash == h)

/-- The number of leads whose source message carries the given text hash. -/
def count_leads_with_hash (db : DB) (h : String) : Nat :=
  (db.leads.filter (fun l => lead_matches_hash db.messages l h)).length

/-- Well-formedness of the database: stored message ids are below the next
fresh id, and every lead's `message_id` refers to a stored message (the
foreign-key constraint of the `leads` table). -/
def DB.WF (db : DB) : Prop :=
  (∀ m ∈ db.messages, m.id < db.next_message_id) ∧
  (∀ l ∈ db.leads, ∃ m ∈ db.messages, m.id = l.message_id)

/-! Concrete fixtures used by witnesses. -/

/-- A discovery state already at its capacity ceiling of 2 known channels. -/
def full_discovery_state : DiscoveryState :=
  { known_ids := {1, 2}, rejected_ids := ∅, max_channels := 2, channels := [],
    monitored := ∅, next_channel_id := 1 }

/-- An entity-resolution oracle that always succeeds. -/
def resolve_ok : Nat → Option (Option String × Option String) :=
  fun _ => some (some "user", some "Title")

/-- A relevance-validation oracle that always accepts. -/
def validate_ok : Nat → Bool := fun _ => true

/-- A collaborator environment whose sender delivers both messages. -/
def env_ok : OutreachEnv :=
  { gen_thread := fun _ _ => "thread reply",
    gen_dm := fun _ _ _ => "dm text",
    send := fun _ _ _ user_id dm_text =>
      sender_send_outreach (.sent 201) (.sent 202) user_id dm_text }

/-- A collaborator environment whose sender fails both messages softly:
the thread reply is forbidden and the recipient's privacy blocks the DM,
so both delivered ids resolve to `None` with no peer-flood signal. -/
def env_both_null : OutreachEnv :=
  { gen_thread := fun _ _ => "thread reply",
    gen_dm := fun _ _ _ => "dm text",
    send := fun _ _ _ user_id dm_text =>
      sender_send_outreach .skipped .skipped user_id dm_text }

/-- One channel row (id 1, platform id 100). -/
def chan1 : Channel :=
  { id := 1, telegram_id := some 100, username := some "chan", title := some "Chan",
    is_active := true, discovered_from := none, discovered_at := none }

/-- One stored message (id 1) on `chan1` from sender 7. -/
def msg1 : Message :=
  { id := 1, telegram_msg_id := 10, channel_id := 1, sender_id := some 7,
    sender_username := some "alice", text := "need a bot", date := 0,
    text_hash := compute_text_hash "need a bot" }

/-- A lead (id 1) in status "new" for `msg1`. -/
def lead1 : Lead :=
  { id := 1, message_id := 1, status := "new", relevance_score := some 1,
    budget := none, stack := none, deadline := none, language := some "en",
    summary := some "bot order", outreach_text := none, dm_text := none,
    outreach_msg_id := none, dm_msg_id := none, contacted_at := none,
    replied_at := none, forwarded_at := none }

/-- A database holding `chan1`, `msg1` and `lead1`. -/
def db1 : DB :=
  { channels := [chan1], messages := [msg1], leads := [lead1], replies := [],
    next_message_id := 2, next_lead_id := 2 }

/-- The orchestrator state for `db1` with a fresh 5-send budget. -/
def st1 : OrchState :=
  { db := db1, budget := { date := 0, sends_used := 0, max_sends := 5 },
    paused_until := none, flood_notices := 0 }

/-- A second channel row (id 2, platform id 200). -/
def chan2 : Channel :=
  { id := 2, telegram_id := some 200, username := some "other", title := some "Other",
    is_active := true, discovered_from := some "search:kw", discovered_at := some 0 }

/-- A database holding the two channels and nothing else. -/
def db_two : DB :=
  { channels := [chan1, chan2], messages := [], leads := [], replies := [],
    next_message_id := 1, next_lead_id := 1 }

/-- A classification oracle that always reports a relevant order. -/
def classify_order : String → Option ClassifyResult :=
  fun _ => some
    { is_order := some true, relevance_score := some 1, budget := some "500",
      stack := some "bots", deadline := none, language := some "en",
      summary := some "bot order" }

/-- An inbound message on channel 100 whose text normalizes to "hello world". -/
def inc_a : IncomingMessage :=
  { telegram_msg_id := 1, chat_id := 100, sender_id := some 7,
    sender_username := some "alice", text := "Hello  World", date := 0 }

/-- An inbound message on channel 200 whose text also normalizes to
"hello world". -/
def inc_b : IncomingMessage :=
  { telegram_msg_id := 2, chat_id := 200, sender_id := some 8,
    sender_username := some "bob", text := " hello world ", date := 1 }

/-- An active discovered channel (id 3, platform id 300, discovered at day 0)
that never produced a lead. -/
def dead_chan : Channel :=
  { id := 3, telegram_id := some 300, username := some "quiet", title := some "Quiet",
    is_active := true, discovered_from := some "search:kw", discovered_at := some 0 }

/-- A database where `chan1` has produced `lead1` and `dead_chan` has
produced nothing. -/
def j_db : DB :=
  { channels := [chan1, dead_chan], messages := [msg1], leads := [lead1],
    replies := [], next_message_id := 2, next_lead_id := 2 }

/-! Theorems. -/

/-- Helper: at capacity, `_try_register` refuses and leaves the whole state
unchanged. -/
theorem try_register_capacity_aux (st : DiscoveryState)
    (resolve : Nat → Option (Option String × Option String)) (validate : Nat → Bool)
    (telegram_id : Nat) (source : String) (username title : Option String) (now : ℚ)
    (hcap : at_capacity st = true) :
    try_register st resolve validate telegram_id source username title now = (false, st) := by
  unfold try_register
  split
  · rfl
  · simp [hcap]

/-- Helper: at capacity, a whole strategy scan registers nothing and leaves
the state unchanged. -/
theorem register_candidates_capacity_aux (st : DiscoveryState)
    (resolve : Nat → Option (Option String × Option String)) (validate : Nat → Bool)
    (now : ℚ) (hcap : at_capacity st = true) :
    ∀ cands, register_candidates st resolve validate now cands = (0, st) := by
  intro cands
  induction cands with
  | nil => rfl
  | cons c rest ih =>
    obtain ⟨tid, src, u, t⟩ := c
    simp [register_candidates,
      try_register_capacity_aux st resolve validate tid src u t now hcap, ih]

/-- C5: once `known_ids` has reached `max_channels`, no further registration
succeeds: `_try_register` returns `False` for every candidate id without
persisting or recording anything — with every resolution and validation
oracle, so even when relevance validation would pass — and a whole strategy
scan over any candidate list registers zero channels and changes nothing. -/
theorem discovery_capacity_gate (st : DiscoveryState)
    (resolve : Nat → Option (Option String × Option String)) (validate : Nat → Bool)
    (telegram_id : Nat) (source : String) (username title : Option String) (now : ℚ)
    (cands : List (Nat × String × Option String × Option String))
    (hcap : at_capacity st = true) :
    try_register st resolve validate telegram_id source username title now = (false, st) ∧
    register_candidates st resolve validate now cands = (0, st) :=
  ⟨try_register_capacity_aux st resolve validate telegram_id source username title now hcap,
   register_candidates_capacity_aux st resolve validate now hcap cands⟩

/-- Witness for C5: a state with 2 known ids and `max_channels = 2` refuses
candidate 5 although the validation oracle always accepts. -/
theorem discovery_capacity_gate_witness :
    try_register full_discovery_state resolve_ok validate_ok 5 "search:kw" none none 0
      = (false, full_discovery_state) ∧
    register_candidates full_discovery_state resolve_ok validate_ok 0
      [(5, "search:kw", none, none), (6, "forward:1", none, none)]
      = (0, full_discovery_state) :=
  discovery_capacity_gate full_discovery_state resolve_ok validate_ok 5 "search:kw"
    none none 0 [(5, "search:kw", none, none), (6, "forward:1", none, none)]
    (by decide)

/-- Helper: one `_send_outreach` call bumps the send counter by at most one
and never touches the budget row's ceiling or date. -/
theorem send_outreach_budget_aux (st : OrchState) (env : OutreachEnv)
    (lead : Lead) (now : ℚ) :
    (send_outreach st env lead now).budget.sends_used ≤ st.budget.sends_used + 1 ∧
    (send_outreach st env lead now).budget.max_sends = st.budget.max_sends := by
  unfold send_outreach
  split
  · exact ⟨Nat.le_succ _, rfl⟩
  · split
    · exact ⟨Nat.le_succ _, rfl⟩
    · split
      · exact ⟨Nat.le_succ _, rfl⟩
      · dsimp only
        split
        · exact ⟨Nat.le_succ _, rfl⟩
        · exact ⟨Nat.le_refl _, rfl⟩

/-- Helper: the per-lead outreach scan keeps `sends_used` at or below the
budget row's ceiling, which it never alters. -/
theorem outreach_pass_budget_aux (env : OutreachEnv) (now : ℚ) :
    ∀ (leads : List Lead) (st : OrchState),
      st.budget.sends_used ≤ st.budget.max_sends →
      (outreach_pass env now st leads).budget.sends_used ≤ st.budget.max_sends ∧
      (outreach_pass env now st leads).budget.max_sends = st.budget.max_sends := by
  intro leads
  induction leads with
  | nil => intro st h; exact ⟨h, rfl⟩
  | cons lead rest ih =>
    intro st h
    unfold outreach_pass
    split
    · exact ⟨h, rfl⟩
    · split
      · exact ⟨h, rfl⟩
      next hbudget =>
        have hlt : st.budget.sends_used < st.budget.max_sends := by omega
        have haux := send_outreach_budget_aux st env lead now
        have hstep : (send_outreach st env lead now).budget.sends_used ≤
            (send_outreach st env lead now).budget.max_sends := by
          rw [haux.2]; omega
        have hrec := ih (send_outreach st env lead now) hstep
        rw [haux.2] at hrec
        exact hrec

/-- C3: over any batch of eligible leads, the outreach loop never records more
sends than the daily budget row's `max_sends`: the budget is re-read before
every send (`outreach_pass` stops when `sends_used >= max_sends`), the counter
grows once per successful send, and the final counter stays at or below the
ceiling whenever it started there. -/
theorem outreach_daily_budget_cap (env : OutreachEnv) (now : ℚ) (st : OrchState)
    (leads : List Lead) (hinv : st.budget.sends_used ≤ st.budget.max_sends) :
    (outreach_pass env now st leads).budget.sends_used ≤ st.budget.max_sends :=
  (outreach_pass_budget_aux env now leads st hinv).1

/-- Witness for C3: a batch of seven copies of an eligible lead against a
5-send budget ends with at most 5 sends recorded. -/
theorem outreach_daily_budget_cap_witness :
    (outreach_pass env_ok 0 st1
        [lead1, lead1, lead1, lead1, lead1, lead1, lead1]).budget.sends_used
      ≤ st1.budget.max_sends :=
  outreach_daily_budget_cap env_ok 0 st1
    [lead1, lead1, lead1, lead1, lead1, lead1, lead1] (by decide)

/-- C7: for every warmup schedule and every number of days since the start
date, `get_current_daily_limit` returns the week-1 tier value for days 0–6,
the week-2 value for days 7–13, the week-3 value for days 14–20, and the
week-4-plus value from day 21 on, the week index being
`days_since_start / 7 + 1` (each tier value carrying its `dict.get` default). -/
theorem warmup_tiers (w : WarmupSchedule) (days : Nat) :
    (days ≤ 6 → get_current_daily_limit w days = w.week_1.getD 2) ∧
    (7 ≤ days → days ≤ 13 → get_current_daily_limit w days = w.week_2.getD 5) ∧
    (14 ≤ days → days ≤ 20 → get_current_daily_limit w days = w.week_3.getD 8) ∧
    (21 ≤ days → get_current_daily_limit w days = w.week_4_plus.getD 12) := by
  refine ⟨?_, ?_, ?_, ?_⟩
  · intro h
    have e : days / 7 = 0 := by omega
    simp [get_current_daily_limit, e]
  · intro h1 h2
    have e : days / 7 = 1 := by omega
    simp [get_current_daily_limit, e]
  · intro h1 h2
    have e : days / 7 = 2 := by omega
    simp [get_current_daily_limit, e]
  · intro h
    have e1 : ¬ (days / 7 + 1 ≤ 1) := by omega
    have e2 : ¬ (days / 7 + 1 ≤ 2) := by omega
    have e3 : ¬ (days / 7 + 1 ≤ 3) := by omega
    simp [get_current_daily_limit, e1, e2, e3]

/-- Witness for C7 at the tier boundaries of the configured example
(2, 5, 8, 12): day 6 is still week 1, day 7 is week 2, day 21 is week 4-plus. -/
theorem warmup_tiers_witness :
    get_current_daily_limit ⟨some 2, some 5, some 8, some 12⟩ 6 = 2 ∧
    get_current_daily_limit ⟨some 2, some 5, some 8, some 12⟩ 7 = 5 ∧
    get_current_daily_limit ⟨some 2, some 5, some 8, some 12⟩ 21 = 12 :=
  ⟨(warmup_tiers ⟨some 2, some 5, some 8, some 12⟩ 6).1 (by decide),
   (warmup_tiers ⟨some 2, some 5, some 8, some 12⟩ 7).2.1 (by decide) (by decide),
   (warmup_tiers ⟨some 2, some 5, some 8, some 12⟩ 21).2.2.2 (by decide)⟩

/-- C4 counterexample: with the default window `[120, 600]`, a drawn delay of
300 inside the window, and a call that starts 601 seconds after the previous
completion (the caller spent that long sending), the interval between
completions is 601 and exceeds `max_delay`: the claim that every inter-send
interval lies within `[min_delay, max_delay]` is false. -/
theorem rate_wait_interval_counterexample :
    (120 : ℚ) ≤ 300 ∧ (300 : ℚ) ≤ 600 ∧ (0 : ℚ) ≤ 601 ∧
    ¬ ((rate_wait { min_delay := 120, max_delay := 600, last_send := 0 } 601 300).2.last_send
        - 0 ≤ 600) := by
  refine ⟨by norm_num, by norm_num, by norm_num, ?_⟩
  norm_num [rate_wait]

/-- C4 (amended): every inter-send interval (between completions of
consecutive `wait()` calls) is at least `min_delay`; it is additionally at
most `max_delay` whenever the caller re-enters `wait()` within `max_delay` of
the previous completion. The unconditional upper bound of the original claim
fails when the caller itself is slower than `max_delay`
(`rate_wait_interval_counterexample`). -/
theorem rate_wait_interval_bounds (rl : RateLimiterState) (start delay : ℚ)
    (hmin : rl.min_delay ≤ delay) (hmax : delay ≤ rl.max_delay)
    (hstart : rl.last_send ≤ start) :
    rl.min_delay ≤ (rate_wait rl start delay).2.last_send - rl.last_send ∧
    (start - rl.last_send ≤ rl.max_delay →
      (rate_wait rl start delay).2.last_send - rl.last_send ≤ rl.max_delay) := by
  constructor
  · simp only [rate_wait]
    split <;> [linarith; linarith]
  · intro h
    simp only [rate_wait]
    split <;> [linarith; linarith]

/-- Witness for C4 (amended): calling again 10 seconds after the previous
completion with a drawn delay of 200 gives an interval of at least 120 and,
since 10 ≤ 600, at most 600. -/
theorem rate_wait_interval_bounds_witness :
    (120 : ℚ) ≤ (rate_wait { min_delay := 120, max_delay := 600, last_send := 5 } 15 200).2.last_send - 5 ∧
    (rate_wait { min_delay := 120, max_delay := 600, last_send := 5 } 15 200).2.last_send - 5 ≤ 600 := by
  have h := rate_wait_interval_bounds
    { min_delay := 120, max_delay := 600, last_send := 5 } 15 200
    (by norm_num) (by norm_num) (by norm_num)
  exact ⟨h.1, h.2 (by norm_num)⟩

/-- C1 counterexample: when the thread reply is forbidden and the DM is
blocked by privacy, `Sender.send_outreach` resolves both delivered ids to
`None` with no peer-flood signal — and `_send_outreach` nonetheless changes
state: the claim that the lead then stays "new" with no counter increment is
false. The positive conjuncts show what the code actually does on this input:
it marks the lead "contacted", stamps `contacted_at`, and increments the
daily counter. -/
theorem send_outreach_both_null_counterexample :
    env_both_null.send (some 100) 10 "thread reply" (some 7) (some "dm text")
      = { thread_msg_id := none, dm_msg_id := none, peer_flood := false } ∧
    (send_outreach st1 env_both_null lead1 50).db.leads =
      [{ lead1 with
          outreach_text := some "thread reply", dm_text := some "dm text",
          outreach_msg_id := none, dm_msg_id := none, status := "contacted",
          contacted_at := some 50 }] ∧
    (send_outreach st1 env_both_null lead1 50).budget.sends_used = 1 ∧
    ¬ ((send_outreach st1 env_both_null lead1 50).db.leads = st1.db.leads ∧
       (send_outreach st1 env_both_null lead1 50).budget.sends_used
         = st1.budget.sends_used) := by
  decide

/-- C1 (amended): the outcome of `_send_outreach` is decided by the peer-flood
flag alone, not by whether either message was delivered. Whenever the sender
reports no peer-flood — even with both delivered message ids `None` — the lead
is marked "contacted" with `contacted_at` stamped and the daily counter is
incremented; only a peer-flood result leaves the lead and the counter
untouched (entering the 24-hour pause instead). -/
theorem send_outreach_no_flood_contacts (st : OrchState) (env : OutreachEnv)
    (lead : Lead) (now : ℚ) (msg : Message) (ch : Channel)
    (hm : get_message st.db lead.message_id = some msg)
    (ht : msg.text ≠ "")
    (hc : get_channel_row st.db msg.channel_id = some ch) :
    let language := lead.language.getD "en"
    let channel_title := ((ch.title.filter (· ≠ "")).orElse
      (fun _ => ch.username.filter (· ≠ ""))).getD "channel"
    let thread_text := env.gen_thread msg.text language
    let dm_text := env.gen_dm msg.text language channel_title
    let result := env.send ch.telegram_id msg.telegram_msg_id thread_text
      msg.sender_id (some dm_text)
    (result.peer_flood = false →
      (send_outreach st env lead now).budget.sends_used = st.budget.sends_used + 1 ∧
      (send_outreach st env lead now).db.leads =
        st.db.leads.map (fun l => if l.id == lead.id then
          { lead with
              outreach_text := some thread_text, dm_text := some dm_text,
              outreach_msg_id := result.thread_msg_id, dm_msg_id := result.dm_msg_id,
              status := "contacted", contacted_at := some now } else l)) ∧
    (result.peer_flood = true →
      (send_outreach st env lead now).db = st.db ∧
      (send_outreach st env lead now).budget = st.budget ∧
      (send_outreach st env lead now).paused_until = some (now + 24) ∧
      (send_outreach st env lead now).flood_notices = st.flood_notices + 1) := by
  intro language channel_title thread_text dm_text result
  have hunfold : send_outreach st env lead now =
      (if result.peer_flood then
        { st with paused_until := some (now + 24), flood_notices := st.flood_notices + 1 }
      else
        { st with
          db := update_lead st.db
            { lead with
                outreach_text := some thread_text, dm_text := some dm_text,
                outreach_msg_id := result.thread_msg_id, dm_msg_id := result.dm_msg_id,
                status := "contacted", contacted_at := some now },
          budget := { st.budget with sends_used := st.budget.sends_used + 1 } }) := by
    unfold send_outreach
    rw [hm]
    simp only [ht, if_false, hc]
  constructor
  · intro hflood
    rw [hunfold, if_neg (by simp [hflood])]
    exact ⟨rfl, rfl⟩
  · intro hflood
    rw [hunfold, if_pos (by simp [hflood])]
    exact ⟨rfl, rfl, rfl, rfl⟩

/-- Witness for C1 (amended) at the counterexample's input: both delivered ids
are `None`, no peer-flood, and the lead is contacted with the counter bumped. -/
theorem send_outreach_no_flood_contacts_witness :
    (send_outreach st1 env_both_null lead1 50).budget.sends_used
      = st1.budget.sends_used + 1 ∧
    (send_outreach st1 env_both_null lead1 50).db.leads =
      st1.db.leads.map (fun l => if l.id == lead1.id then
        { lead1 with
            outreach_text := some "thread reply", dm_text := some "dm text",
            outreach_msg_id := none, dm_msg_id := none, status := "contacted",
            contacted_at := some 50 } else l) := by
  have h := send_outreach_no_flood_contacts st1 env_both_null lead1 50 msg1 chan1
    (by decide) (by decide) (by decide)
  exact h.1 (by decide)

/-- C9: the per-lead forwarding scan walks the replies in insertion order; if
any reply is positive the lead ends "forwarded" with `forwarded_at` stamped
and exactly one operator notification (first positive wins, the scan stops);
the lead ends "negative" exactly when no reply is positive and some reply is
negative (no notification); with neither, the lead is untouched. -/
theorem reply_precedence (lead : Lead) (replies : List Reply) (now : ℚ) :
    ((∃ r ∈ replies, r.sentiment = some "positive") →
      (forward_lead lead replies now).1.status = "forwarded" ∧
      (forward_lead lead replies now).1.forwarded_at = some now ∧
      (forward_lead lead replies now).2 = 1) ∧
    ((∀ r ∈ replies, r.sentiment ≠ some "positive") →
      ((∃ r ∈ replies, r.sentiment = some "negative") →
        (forward_lead lead replies now).1.status = "negative" ∧
        (forward_lead lead replies now).2 = 0) ∧
      ((∀ r ∈ replies, r.sentiment ≠ some "negative") →
        forward_lead lead replies now = (lead, 0))) := by
  constructor
  · rintro ⟨r, hr, hs⟩
    have hne : replies.find? (fun x => x.sentiment == some "positive") ≠ none := by
      rw [Ne, List.find?_eq_none]
      intro hall
      exact hall r hr (by simpa using hs)
    rcases hx : replies.find? (fun x => x.sentiment == some "positive") with _ | x
    · exact absurd hx hne
    · unfold forward_lead
      rw [hx]
      exact ⟨rfl, rfl, rfl⟩
  · intro hno
    have hf : replies.find? (fun x => x.sentiment == some "positive") = none := by
      rw [List.find?_eq_none]
      intro x hx
      simpa using hno x hx
    constructor
    · rintro ⟨r, hr, hs⟩
      have hany : replies.any (fun x => x.sentiment == some "negative") = true := by
        rw [List.any_eq_true]
        exact ⟨r, hr, by simpa using hs⟩
      unfold forward_lead
      rw [hf]
      simp [hany]
    · intro hnoneg
      have hany : replies.any (fun x => x.sentiment == some "negative") = false := by
        rw [Bool.eq_false_iff, Ne, List.any_eq_true]
        rintro ⟨r, hr, hs⟩
        exact hnoneg r hr (by simpa using hs)
      unfold forward_lead
      rw [hf]
      simp [hany]

/-- Witness for C9 at the spec's own example: one negative reply followed by a
later positive reply ends in "forwarded" with one notification, not
"negative". -/
theorem reply_precedence_witness :
    (forward_lead lead1
        [{ id := 1, lead_id := 1, telegram_msg_id := some 30, sender_id := some 7,
           text := some "no thanks", sentiment := some "negative", received_at := some 60 },
         { id := 2, lead_id := 1, telegram_msg_id := some 31, sender_id := some 7,
           text := some "sounds good", sentiment := some "positive", received_at := some 61 }]
        70).1.status = "forwarded" ∧
    (forward_lead lead1
        [{ id := 1, lead_id := 1, telegram_msg_id := some 30, sender_id := some 7,
           text := some "no thanks", sentiment := some "negative", received_at := some 60 },
         { id := 2, lead_id := 1, telegram_msg_id := some 31, sender_id := some 7,
           text := some "sounds good", sentiment := some "positive", received_at := some 61 }]
        70).2 = 1 := by
  have h := (reply_precedence lead1
    [{ id := 1, lead_id := 1, telegram_msg_id := some 30, sender_id := some 7,
       text := some "no thanks", sentiment := some "negative", received_at := some 60 },
     { id := 2, lead_id := 1, telegram_msg_id := some 31, sender_id := some 7,
       text := some "sounds good", sentiment := some "positive", received_at := some 61 }]
    70).1 (by decide)
  exact ⟨h.1, h.2.2⟩

/-- C10: a classification result whose `is_order` field is falsy (missing,
null or false) never produces a lead, whatever its relevance score, because
`classify_message` already resolves any non-order result to `None` before the
orchestrator's relevance check runs. -/
theorem falsy_is_order_no_lead (db : DB) (min_relevance : ℚ)
    (classify : String → Option ClassifyResult) (incoming : IncomingMessage)
    (r : ClassifyResult)
    (hcl : classify incoming.text = some r)
    (hord : r.is_order.getD false = false) :
    classify_message (classify incoming.text) = none ∧
    (process_message db min_relevance classify incoming).leads = db.leads := by
  have hnone : classify_message (classify incoming.text) = none := by
    rw [hcl]
    unfold classify_message
    simp [hord]
  refine ⟨hnone, ?_⟩
  unfold process_message
  cases hch : get_channel_by_telegram_id db incoming.chat_id with
  | none => rfl
  | some channel =>
    dsimp only
    unfold insert_message
    by_cases hdup : message_dup db channel.id incoming.telegram_msg_id
    · simp [hdup]
    · simp only [hdup, Bool.false_eq_true, if_false]
      rw [hnone]
      split <;> rfl

/-- Witness for C10: a non-order result with a perfect relevance score of 1
(far above a threshold of 0.6) still creates no lead. -/
theorem falsy_is_order_no_lead_witness :
    classify_message
      ((fun _ => some
        { is_order := some false, relevance_score := some 1, budget := none,
          stack := none, deadline := none, language := some "en",
          summary := some "ad" }) "spam ad")
      = none ∧
    (process_message db1 (6/10)
      (fun _ => some
        { is_order := some false, relevance_score := some 1, budget := none,
          stack := none, deadline := none, language := some "en",
          summary := some "ad" })
      { telegram_msg_id := 11, chat_id := 100, sender_id := some 8,
        sender_username := none, text := "spam ad", date := 1 }).leads
      = db1.leads :=
  falsy_is_order_no_lead db1 (6/10)
    (fun _ => some
      { is_order := some false, relevance_score := some 1, budget := none,
        stack := none, deadline := none, language := some "en",
        summary := some "ad" })
    { telegram_msg_id := 11, chat_id := 100, sender_id := some 8,
      sender_username := none, text := "spam ad", date := 1 }
    { is_order := some false, relevance_score := some 1, budget := none,
      stack := none, deadline := none, language := some "en",
      summary := some "ad" }
    rfl rfl

/-- Helper: `List.any` only depends on the predicate's values on members. -/
theorem any_congr_mem {α : Type} (l : List α) (p q : α → Bool)
    (h : ∀ x ∈ l, p x = q x) : l.any p = l.any q := by
  induction l with
  | nil => rfl
  | cons a t ih =>
    simp only [List.any_cons, h a (by simp)]
    rw [ih (fun x hx => h x (by simp [hx]))]

/-- Helper: `has_lead_with_text_hash` is the existence form of the lead
count. -/
theorem has_lead_iff_count_pos (db : DB) (h : String) :
    has_lead_with_text_hash db h = true ↔ 0 < count_leads_with_hash db h := by
  show db.leads.any (fun l => lead_matches_hash db.messages l h) = true ↔ _
  rw [List.any_eq_true, count_leads_with_hash, List.length_pos_iff_exists_mem]
  constructor
  · rintro ⟨l, hl, hm⟩
    exact ⟨l, List.mem_filter.mpr ⟨hl, hm⟩⟩
  · rintro ⟨l, hl⟩
    obtain ⟨h1, h2⟩ := List.mem_filter.mp hl
    exact ⟨l, h1, h2⟩

/-- Helper: appending a message with a fresh id does not change whether an
existing, well-referenced lead matches a hash. -/
theorem lead_matches_hash_append (msgs : List Message) (m : Message) (l : Lead)
    (h : String) (hex : ∃ m0 ∈ msgs, m0.id = l.message_id)
    (hfresh : ∀ m0 ∈ msgs, m0.id < m.id) :
    lead_matches_hash (msgs ++ [m]) l h = lead_matches_hash msgs l h := by
  unfold lead_matches_hash
  rw [List.any_append]
  obtain ⟨m0, hm0, hid⟩ := hex
  have hne : (m.id == l.message_id) = false := by
    rw [beq_eq_false_iff_ne]
    have := hfresh m0 hm0
    omega
  simp [hne]

/-- Helper: a lead pointing at a freshly appended message matches exactly that
message's hash. -/
theorem lead_matches_new (msgs : List Message) (m : Message) (l : Lead)
    (hmid : l.message_id = m.id) (hfresh : ∀ m0 ∈ msgs, m0.id < m.id) (h : String) :
    lead_matches_hash (msgs ++ [m]) l h = (m.text_hash == h) := by
  unfold lead_matches_hash
  rw [List.any_append]
  have hl : msgs.any (fun m0 => m0.id == l.message_id && m0.text_hash == h) = false := by
    rw [Bool.eq_false_iff, Ne, List.any_eq_true]
    rintro ⟨m0, hm0, hmm⟩
    rw [Bool.and_eq_true, beq_iff_eq] at hmm
    have := hfresh m0 hm0
    omega
  rw [hl]
  simp [hmid]

/-- Helper: appending a fresh message leaves every hash's lead count
unchanged in a well-formed database. -/
theorem count_append_message (db : DB) (m : Message) (nid : Nat)
    (hwf : DB.WF db) (hfresh : ∀ m0 ∈ db.messages, m0.id < m.id) (h : String) :
    count_leads_with_hash
        { db with messages := db.messages ++ [m], next_message_id := nid } h
      = count_leads_with_hash db h := by
  unfold count_leads_with_hash
  dsimp only
  congr 1
  apply List.filter_congr
  intro l hl
  exact lead_matches_hash_append db.messages m l h (hwf.2 l hl) hfresh

/-- Helper: appending a lead adds one to the count of the hashes it matches
and nothing elsewhere (stated on the row constructor so it rewrites inside
goals; the count ignores the fresh-id counters). -/
theorem count_append_lead (chs : List Channel) (msgs : List Message)
    (lds : List Lead) (rps : List Reply) (nmi nli nli2 : Nat) (l0 : Lead)
    (h : String) :
    count_leads_with_hash ⟨chs, msgs, lds ++ [l0], rps, nmi, nli2⟩ h
      = count_leads_with_hash ⟨chs, msgs, lds, rps, nmi, nli⟩ h
        + (if lead_matches_hash msgs l0 h then 1 else 0) := by
  unfold count_leads_with_hash
  dsimp only
  rw [List.filter_append, List.length_append]
  congr 1
  by_cases hm : lead_matches_hash msgs l0 h <;> simp [hm]

/-- Helper: appending a fresh message leaves `has_lead_with_text_hash`
unchanged in a well-formed database. -/
theorem has_lead_append_eq (db : DB) (m : Message) (nid : Nat)
    (hwf : DB.WF db) (hfresh : ∀ m0 ∈ db.messages, m0.id < m.id) (h : String) :
    has_lead_with_text_hash
        { db with messages := db.messages ++ [m], next_message_id := nid } h
      = has_lead_with_text_hash db h := by
  show ({ db with messages := db.messages ++ [m], next_message_id := nid } : DB).leads.any _
      = db.leads.any _
  dsimp only
  exact any_congr_mem db.leads _ _
    (fun l hl => lead_matches_hash_append db.messages m l h (hwf.2 l hl) hfresh)

/-- Helper: `has_lead_with_text_hash` is the `any` of the per-lead join
condition. -/
theorem has_lead_eq_any (db : DB) (h : String) :
    has_lead_with_text_hash db h
      = db.leads.any (fun l => lead_matches_hash db.messages l h) := rfl

/-- Helper: appending a message cannot make `has_lead_with_text_hash` drop
from true to false. -/
theorem has_lead_append_mono (db : DB) (m : Message) (nid : Nat) (h : String)
    (htrue : has_lead_with_text_hash db h = true) :
    has_lead_with_text_hash
        { db with messages := db.messages ++ [m], next_message_id := nid } h = true := by
  rw [has_lead_eq_any] at htrue ⊢
  dsimp only
  rw [List.any_eq_true] at htrue ⊢
  obtain ⟨l, hl, hm⟩ := htrue
  refine ⟨l, hl, ?_⟩
  unfold lead_matches_hash at hm ⊢
  rw [List.any_append, hm, Bool.true_or]

/-- Helper: inverting a failed `insert_message`. -/
theorem insert_message_none_inv {db : DB} {tmi cid : Nat} {sid : Option Nat}
    {su : Option String} {txt : String} {dt : ℚ} {th : String} {db1 : DB}
    (heq : insert_message db tmi cid sid su txt dt th = (none, db1)) : db1 = db := by
  unfold insert_message at heq
  split at heq
  · simp only [Prod.mk.injEq] at heq
    exact heq.2.symm
  · simp at heq

/-- Helper: inverting a successful `insert_message`. -/
theorem insert_message_some_inv {db : DB} {tmi cid : Nat} {sid : Option Nat}
    {su : Option String} {txt : String} {dt : ℚ} {th : String} {msg_id : Nat} {db1 : DB}
    (heq : insert_message db tmi cid sid su txt dt th = (some msg_id, db1)) :
    msg_id = db.next_message_id ∧
    db1 = { db with
      messages := db.messages ++
        [{ id := db.next_message_id, telegram_msg_id := tmi, channel_id := cid,
           sender_id := sid, sender_username := su, text := txt, date := dt,
           text_hash := th }],
      next_message_id := db.next_message_id + 1 } := by
  unfold insert_message at heq
  split at heq
  · simp at heq
  · simp only [Prod.mk.injEq, Option.some.injEq] at heq
    exact ⟨heq.1.symm, heq.2.symm⟩

/-- Helper: inserting a fresh message preserves well-formedness. -/
theorem wf_insert_message (db : DB) (m : Message) (hid : m.id = db.next_message_id)
    (hwf : DB.WF db) :
    DB.WF { db with messages := db.messages ++ [m],
                    next_message_id := db.next_message_id + 1 } := by
  constructor
  · intro m0 hm0
    dsimp only at hm0 ⊢
    rcases List.mem_append.mp hm0 with h0 | h0
    · have := hwf.1 m0 h0
      omega
    · rw [List.mem_singleton] at h0
      subst h0
      omega
  · intro l hl
    dsimp only at hl ⊢
    obtain ⟨m0, hm0, hid0⟩ := hwf.2 l hl
    exact ⟨m0, List.mem_append.mpr (Or.inl hm0), hid0⟩

/-- Helper: inserting a lead that references a stored message preserves
well-formedness. -/
theorem wf_insert_lead (db : DB) (l0 : Lead) (nid : Nat)
    (hex : ∃ m ∈ db.messages, m.id = l0.message_id) (hwf : DB.WF db) :
    DB.WF { db with leads := db.leads ++ [l0], next_lead_id := nid } := by
  constructor
  · exact hwf.1
  · intro l hl
    dsimp only at hl ⊢
    rcases List.mem_append.mp hl with h0 | h0
    · exact hwf.2 l h0
    · rw [List.mem_singleton] at h0
      subst h0
      exact hex

/-- Helper: one intake step preserves well-formedness and keeps every hash's
lead count at or below one — the creation path runs only after
`has_lead_with_text_hash` reported no lead with the message's hash. -/
theorem process_message_invariant_aux (db : DB) (minRel : ℚ)
    (classify : String → Option ClassifyResult) (inc : IncomingMessage)
    (hwf : DB.WF db) :
    DB.WF (process_message db minRel classify inc) ∧
    (∀ h, count_leads_with_hash db h ≤ 1 →
      count_leads_with_hash (process_message db minRel classify inc) h ≤ 1) := by
  unfold process_message
  split
  · exact ⟨hwf, fun _ hc => hc⟩
  next channel hch =>
    dsimp only
    split
    next db1 heq =>
      rw [insert_message_none_inv heq]
      exact ⟨hwf, fun _ hc => hc⟩
    next msg_id db1 heq =>
      obtain ⟨hmsg, hdb1⟩ := insert_message_some_inv heq
      subst hdb1
      subst hmsg
      set msgNew : Message :=
        { id := db.next_message_id, telegram_msg_id := inc.telegram_msg_id,
          channel_id := channel.id, sender_id := inc.sender_id,
          sender_username := inc.sender_username, text := inc.text,
          date := inc.date, text_hash := compute_text_hash inc.text } with hmsgNew
      have hfresh : ∀ m0 ∈ db.messages, m0.id < msgNew.id := hwf.1
      have hwf1 : DB.WF
          { db with
              messages := db.messages ++ [msgNew],
              next_message_id := db.next_message_id + 1 } :=
        wf_insert_message db msgNew rfl hwf
      have hcount : ∀ h, count_leads_with_hash db h ≤ 1 →
          count_leads_with_hash
            { db with
                messages := db.messages ++ [msgNew],
                next_message_id := db.next_message_id + 1 } h ≤ 1 :=
        fun h hc => by
          rw [count_append_message db msgNew _ hwf hfresh h]
          exact hc
      split
      · exact ⟨hwf1, hcount⟩
      next hseen =>
        split
        · exact ⟨hwf1, hcount⟩
        next result hres =>
          split
          · exact ⟨hwf1, hcount⟩
          next hscore =>
            unfold insert_lead
            dsimp only
            constructor
            · apply wf_insert_lead
                { db with
                    messages := db.messages ++ [msgNew],
                    next_message_id := db.next_message_id + 1 }
              · exact ⟨msgNew,
                  List.mem_append.mpr (Or.inr (List.mem_singleton.mpr rfl)), rfl⟩
              · exact hwf1
            · intro h hc
              rw [count_append_lead db.channels (db.messages ++ [msgNew]) db.leads
                db.replies (db.next_message_id + 1) db.next_lead_id
                (db.next_lead_id + 1) _ h]
              rw [lead_matches_new db.messages msgNew _ rfl hfresh h]
              by_cases hh : msgNew.text_hash = h
              · have hzero : count_leads_with_hash
                    { db with
                        messages := db.messages ++ [msgNew],
                        next_message_id := db.next_message_id + 1 } h = 0 := by
                  by_contra hnz
                  apply hseen
                  have hht : h = compute_text_hash inc.text := by
                    rw [← hh]
                  rw [hht] at hnz
                  exact (has_lead_iff_count_pos _ _).mpr (by omega)
                have hbeq : (msgNew.text_hash == h) = true := by
                  rw [beq_iff_eq]
                  exact hh
                rw [hbeq, hzero]
                simp
              · have hbeq : (msgNew.text_hash == h) = false := by
                  rw [beq_eq_false_iff_ne]
                  exact hh
                rw [hbeq]
                simpa using hcount h hc

/-- Helper: when some lead already carries the message's hash, the intake step
creates no lead: the lead table is unchanged. -/
theorem process_message_seen_aux (db : DB) (minRel : ℚ)
    (classify : String → Option ClassifyResult) (inc : IncomingMessage)
    (hseen : 1 ≤ count_leads_with_hash db (compute_text_hash inc.text)) :
    (process_message db minRel classify inc).leads = db.leads := by
  unfold process_message
  split
  · rfl
  next channel hch =>
    dsimp only
    split
    next db1 heq =>
      rw [insert_message_none_inv heq]
    next msg_id db1 heq =>
      obtain ⟨hmsg, hdb1⟩ := insert_message_some_inv heq
      subst hdb1
      have htrue := has_lead_append_mono db
        { id := db.next_message_id, telegram_msg_id := inc.telegram_msg_id,
          channel_id := channel.id, sender_id := inc.sender_id,
          sender_username := inc.sender_username, text := inc.text,
          date := inc.date, text_hash := compute_text_hash inc.text }
        (db.next_message_id + 1) (compute_text_hash inc.text)
        ((has_lead_iff_count_pos db _).mpr (by omega))
      simp only [htrue, if_true]

/-- C2: for two inbound messages whose texts normalize identically, processing
both through intake leaves at most one lead carrying that normalized-text
hash (the system-wide invariant is preserved by every step); and if the first
processing already produced the lead for that hash, the second processing
leaves the lead table untouched, so the one lead stays attached to the
first-processed message — whatever two (distinct or equal) channels the
messages arrived on. -/
theorem cross_channel_dedup (db : DB) (minRel : ℚ)
    (classify : String → Option ClassifyResult) (m1 m2 : IncomingMessage)
    (hwf : DB.WF db) (hinv : ∀ h, count_leads_with_hash db h ≤ 1)
    (hnorm : normalize_text m1.text = normalize_text m2.text) :
    count_leads_with_hash
      (process_message (process_message db minRel classify m1) minRel classify m2)
      (compute_text_hash m1.text) ≤ 1 ∧
    (1 ≤ count_leads_with_hash (process_message db minRel classify m1)
        (compute_text_hash m1.text) →
      (process_message (process_message db minRel classify m1) minRel classify m2).leads
        = (process_message db minRel classify m1).leads) := by
  have h1 := process_message_invariant_aux db minRel classify m1 hwf
  have h2 := process_message_invariant_aux (process_message db minRel classify m1)
    minRel classify m2 h1.1
  constructor
  · exact h2.2 _ (h1.2 _ (hinv _))
  · intro hge
    have hhash : compute_text_hash m2.text = compute_text_hash m1.text := by
      unfold compute_text_hash
      exact hnorm.symm
    exact process_message_seen_aux (process_message db minRel classify m1) minRel
      classify m2 (by rw [hhash]; exact hge)

/-- Witness for C2: two texts that normalize to "hello world", arriving on two
distinct channels of an empty database, leave at most one lead with that hash,
and the second processing changes no lead. -/
theorem cross_channel_dedup_witness :
    count_leads_with_hash
      (process_message (process_message db_two 1 classify_order inc_a)
        1 classify_order inc_b)
      (compute_text_hash "Hello  World") ≤ 1 ∧
    (process_message (process_message db_two 1 classify_order inc_a)
        1 classify_order inc_b).leads
      = (process_message db_two 1 classify_order inc_a).leads := by
  have h := cross_channel_dedup db_two 1 classify_order inc_a inc_b
    ⟨by decide, by decide⟩ (fun h => by simp [count_leads_with_hash, db_two])
    (by decide)
  exact ⟨h.1, h.2 (by decide)⟩

/-- C8: for a message that passes channel resolution, insertion and dedup,
with a non-null classification result: a relevance score strictly below the
threshold creates no lead, while a score at or above the threshold (inclusive
at the boundary) appends exactly one lead in status "new" carrying that
score. -/
theorem relevance_gate (db : DB) (minRel : ℚ)
    (classify : String → Option ClassifyResult) (inc : IncomingMessage)
    (ch : Channel) (r : ClassifyResult)
    (hwf : DB.WF db)
    (hch : get_channel_by_telegram_id db inc.chat_id = some ch)
    (hdup : message_dup db ch.id inc.telegram_msg_id = false)
    (hno : has_lead_with_text_hash db (compute_text_hash inc.text) = false)
    (hcl : classify inc.text = some r)
    (hord : r.is_order.getD false = true) :
    (r.relevance_score.getD 0 < minRel →
      (process_message db minRel classify inc).leads = db.leads) ∧
    (minRel ≤ r.relevance_score.getD 0 →
      (process_message db minRel classify inc).leads
        = db.leads ++
          [{ id := db.next_lead_id, message_id := db.next_message_id,
             status := "new", relevance_score := some (r.relevance_score.getD 0),
             budget := r.budget, stack := r.stack, deadline := r.deadline,
             language := r.language, summary := r.summary, outreach_text := none,
             dm_text := none, outreach_msg_id := none, dm_msg_id := none,
             contacted_at := none, replied_at := none, forwarded_at := none }]) := by
  unfold process_message
  rw [hch]
  dsimp only
  have heq : insert_message db inc.telegram_msg_id ch.id inc.sender_id
      inc.sender_username inc.text inc.date (compute_text_hash inc.text)
      = (some db.next_message_id,
         { db with
           messages := db.messages ++
             [{ id := db.next_message_id, telegram_msg_id := inc.telegram_msg_id,
                channel_id := ch.id, sender_id := inc.sender_id,
                sender_username := inc.sender_username, text := inc.text,
                date := inc.date, text_hash := compute_text_hash inc.text }],
           next_message_id := db.next_message_id + 1 }) := by
    unfold insert_message
    simp [hdup]
  rw [heq]
  dsimp only
  have hno2 : has_lead_with_text_hash
      { db with
        messages := db.messages ++
          [{ id := db.next_message_id, telegram_msg_id := inc.telegram_msg_id,
             channel_id := ch.id, sender_id := inc.sender_id,
             sender_username := inc.sender_username, text := inc.text,
             date := inc.date, text_hash := compute_text_hash inc.text }],
        next_message_id := db.next_message_id + 1 }
      (compute_text_hash inc.text) = false := by
    rw [has_lead_append_eq db _ _ hwf hwf.1]
    exact hno
  simp only [hno2, Bool.false_eq_true, if_false]
  rw [hcl]
  unfold classify_message
  simp only [hord, if_true]
  constructor
  · intro hlt
    rw [if_pos hlt]
  · intro hge
    rw [if_neg (not_lt.mpr hge)]
    unfold insert_lead
    dsimp only

/-- Witness for C8 at the inclusive boundary: with threshold 1 and a result
scoring exactly 1, a lead in status "new" is appended; the hypotheses hold on
`db1` for a fresh text. -/
theorem relevance_gate_witness :
    (process_message db1 1
        (fun _ => some
          { is_order := some true, relevance_score := some 1, budget := none,
            stack := some "web", deadline := none, language := some "en",
            summary := some "site order" })
        { telegram_msg_id := 12, chat_id := 100, sender_id := some 9,
          sender_username := none, text := "need a site", date := 2 }).leads
      = db1.leads ++
        [{ id := db1.next_lead_id, message_id := db1.next_message_id,
           status := "new", relevance_score := some 1, budget := none,
           stack := some "web", deadline := none, language := some "en",
           summary := some "site order", outreach_text := none, dm_text := none,
           outreach_msg_id := none, dm_msg_id := none, contacted_at := none,
           replied_at := none, forwarded_at := none }] := by
  have h := relevance_gate db1 1
    (fun _ => some
      { is_order := some true, relevance_score := some 1, budget := none,
        stack := some "web", deadline := none, language := some "en",
        summary := some "site order" })
    { telegram_msg_id := 12, chat_id := 100, sender_id := some 9,
      sender_username := none, text := "need a site", date := 2 }
    chan1
    { is_order := some true, relevance_score := some 1, budget := none,
      stack := some "web", deadline := none, language := some "en",
      summary := some "site order" }
    ⟨by decide, by decide⟩ (by decide) (by decide) (by decide) rfl rfl
  exact h.2 (by norm_num)

/-- Helper: one deactivation followed by the remaining updates acts pointwise
like the combined update for the whole dead list. -/
theorem deactivate_upd_comp (L : List Channel) (d : Channel) (c : Channel) :
    (fun c0 => if L.any (fun x => x.id == c0.id) then { c0 with is_active := false }
      else c0)
      ((fun c0 => if c0.id == d.id then { c0 with is_active := false } else c0) c)
    = if (d :: L).any (fun x => x.id == c.id) then { c with is_active := false }
      else c := by
  obtain ⟨cid, ctid, cu, ct, ca, cdf, cda⟩ := c
  by_cases hcd : cid = d.id
  · subst hcd
    simp [List.any_cons]
  · have h1 : (cid == d.id) = false := by
      rw [beq_eq_false_iff_ne]
      exact hcd
    have h2 : (d.id == cid) = false := by
      rw [beq_eq_false_iff_ne]
      exact Ne.symm hcd
    simp [List.any_cons, h1, h2]

/-- Helper: the channels table after the janitor's fold is the original table
with every channel whose id occurs in the processed list deactivated. -/
theorem sweep_channels_aux :
    ∀ (L : List Channel) (db0 : DB) (mon0 : Finset Nat),
      ((L.foldl (fun acc ch =>
          (deactivate_channel acc.1 ch.id,
           if ch.telegram_id.getD 0 ≠ 0 then acc.2.erase (ch.telegram_id.getD 0)
           else acc.2)) (db0, mon0)).1).channels
        = db0.channels.map (fun c =>
            if L.any (fun x => x.id == c.id) then { c with is_active := false }
            else c) := by
  intro L
  induction L with
  | nil =>
    intro db0 mon0
    simp
  | cons d L ih =>
    intro db0 mon0
    rw [List.foldl_cons]
    dsimp only
    rw [ih]
    unfold deactivate_channel
    dsimp only
    rw [List.map_map]
    congr 1
    funext c
    exact deactivate_upd_comp L d c

/-- Helper: the janitor's fold never subscribes a chat: an id absent from the
monitored set stays absent. -/
theorem sweep_monitored_keep_aux :
    ∀ (L : List Channel) (db0 : DB) (mon0 : Finset Nat) (t : Nat), t ∉ mon0 →
      t ∉ (L.foldl (fun acc ch =>
          (deactivate_channel acc.1 ch.id,
           if ch.telegram_id.getD 0 ≠ 0 then acc.2.erase (ch.telegram_id.getD 0)
           else acc.2)) (db0, mon0)).2 := by
  intro L
  induction L with
  | nil =>
    intro db0 mon0 t h
    exact h
  | cons d L ih =>
    intro db0 mon0 t h
    rw [List.foldl_cons]
    dsimp only
    apply ih
    split
    · intro hm
      exact h (Finset.mem_of_mem_erase hm)
    · exact h

/-- Helper: an id carried (as a truthy platform id) by some channel of the
processed list is absent from the monitored set after the fold. -/
theorem sweep_monitored_erase_aux :
    ∀ (L : List Channel) (db0 : DB) (mon0 : Finset Nat) (t : Nat),
      (∃ c ∈ L, c.telegram_id = some t) → t ≠ 0 →
      t ∉ (L.foldl (fun acc ch =>
          (deactivate_channel acc.1 ch.id,
           if ch.telegram_id.getD 0 ≠ 0 then acc.2.erase (ch.telegram_id.getD 0)
           else acc.2)) (db0, mon0)).2 := by
  intro L
  induction L with
  | nil =>
    rintro db0 mon0 t ⟨c, hc, -⟩ -
    exact absurd hc (List.not_mem_nil c)
  | cons d L ih =>
    rintro db0 mon0 t ⟨c, hc, htid⟩ hnz
    rw [List.foldl_cons]
    dsimp only
    rcases List.mem_cons.mp hc with rfl | hcL
    · apply sweep_monitored_keep_aux
      have hd : c.telegram_id.getD 0 = t := by
        rw [htid]
        rfl
      rw [hd, if_pos hnz]
      exact Finset.not_mem_erase t mon0
    · exact ih _ _ t ⟨c, hcL, htid⟩ hnz

/-- Helper: membership in the dead-channel query unfolded to its row
conditions. -/
theorem dead_channel_iff_aux (db : DB) (now : ℚ) (c : Channel)
    (hc : c ∈ db.channels) :
    c ∈ get_dead_channels db now 7 ↔
      (c.is_active = true ∧ (∃ d, c.discovered_at = some d ∧ 7 < now - d) ∧
        channel_has_lead db c.id = false) := by
  unfold get_dead_channels
  rw [List.mem_filter]
  unfold is_dead_channel
  constructor
  · rintro ⟨-, hd⟩
    rw [Bool.and_eq_true, Bool.and_eq_true] at hd
    obtain ⟨⟨ha, hage⟩, hlead⟩ := hd
    refine ⟨ha, ?_, ?_⟩
    · cases hda : c.discovered_at with
      | none =>
        rw [hda] at hage
        simp at hage
      | some d =>
        rw [hda] at hage
        exact ⟨d, rfl, by simpa using hage⟩
    · simpa using hlead
  · rintro ⟨ha, ⟨d, hda, hage⟩, hlead⟩
    refine ⟨hc, ?_⟩
    rw [Bool.and_eq_true, Bool.and_eq_true]
    refine ⟨⟨ha, ?_⟩, by simpa using hlead⟩
    rw [hda]
    simpa using hage

/-- C6: the janitor's dead-channel sweep is exact. The dead-channel query
returns precisely the channels that are active, discovered more than 7 days
ago, and have never produced a lead; the sweep deactivates exactly those rows
(`is_active` flipped to false, every other row byte-identical, no row
deleted), and every swept channel with a truthy platform id is removed from
the intake source's monitored set. -/
theorem janitor_dead_sweep_spec (db : DB) (monitored : Finset Nat) (now : ℚ)
    (hnodup : (db.channels.map Channel.id).Nodup) :
    (∀ c ∈ db.channels, c ∈ get_dead_channels db now 7 ↔
      (c.is_active = true ∧ (∃ d, c.discovered_at = some d ∧ 7 < now - d) ∧
        channel_has_lead db c.id = false)) ∧
    (janitor_dead_sweep db monitored now).1.channels.length
      = db.channels.length ∧
    (janitor_dead_sweep db monitored now).1.channels
      = db.channels.map (fun c =>
          if c ∈ get_dead_channels db now 7 then { c with is_active := false }
          else c) ∧
    (∀ c ∈ get_dead_channels db now 7, ∀ t, c.telegram_id = some t → t ≠ 0 →
      t ∉ (janitor_dead_sweep db monitored now).2) := by
  have hchannels : (janitor_dead_sweep db monitored now).1.channels
      = db.channels.map (fun c =>
          if c ∈ get_dead_channels db now 7 then { c with is_active := false }
          else c) := by
    unfold janitor_dead_sweep
    rw [sweep_channels_aux]
    apply List.map_congr_left
    intro c hc
    by_cases hmem : c ∈ get_dead_channels db now 7
    · have hany : (get_dead_channels db now 7).any (fun x => x.id == c.id) = true := by
        rw [List.any_eq_true]
        exact ⟨c, hmem, by simp⟩
      rw [hany, if_pos hmem]
      rfl
    · have hany : (get_dead_channels db now 7).any (fun x => x.id == c.id) = false := by
        rw [Bool.eq_false_iff, Ne, List.any_eq_true]
        rintro ⟨x, hx, hxe⟩
        rw [beq_iff_eq] at hxe
        have hxc : x ∈ db.channels := (List.mem_filter.mp hx).1
        have := List.inj_on_of_nodup_map hnodup hxc hc hxe
        exact hmem (this ▸ hx)
      rw [hany, if_neg hmem]
      rfl
  refine ⟨fun c hc => dead_channel_iff_aux db now c hc, ?_, hchannels, ?_⟩
  · rw [hchannels, List.length_map]
  · intro c hc t htid hnz
    unfold janitor_dead_sweep
    exact sweep_monitored_erase_aux _ _ _ t ⟨c, hc, htid⟩ hnz

/-- Witness for C6: in `j_db` at day 10, exactly `dead_chan` (active,
discovered 10 days ago, zero leads) is deactivated, `chan1` (which produced a
lead) is untouched, and platform id 300 is unsubscribed. -/
theorem janitor_dead_sweep_spec_witness :
    (janitor_dead_sweep j_db {100, 300} 10).1.channels
      = j_db.channels.map (fun c =>
          if c ∈ get_dead_channels j_db 10 7 then { c with is_active := false }
          else c) ∧
    300 ∉ (janitor_dead_sweep j_db {100, 300} 10).2 := by
  have hmem : dead_chan ∈ get_dead_channels j_db 10 7 := by
    unfold get_dead_channels
    rw [List.mem_filter]
    refine ⟨by simp [j_db], ?_⟩
    unfold is_dead_channel channel_has_lead
    simp only [dead_chan, j_db, msg1]
    norm_num
  have h := janitor_dead_sweep_spec j_db {100, 300} 10 (by decide)
  exact ⟨h.2.2.1, h.2.2.2 dead_chan hmem 300 rfl (by decide)⟩

end Pipeline
